import Mathlib

/-!
Verification of the sampling and series-aggregation engine of the
`system_monitor` repository (`resource_collector.py`, `monitor.py`).

The Python code is shallowly embedded: each adapter function becomes a pure
Lean function; the OS facilities an adapter queries (psutil / GPUtil calls)
are passed in explicitly as `Option`-valued reads, `none` standing for the
exception path of the corresponding `try:` block; the mutable collector
object (`self.data_history`, `self.network_last`, `self.last_time`) becomes
an explicit `CollectorState` threaded through the functions.  Python numbers
(floats and unbounded ints) are modelled by `ℚ` and `Int`.
-/

namespace SystemMonitor

/-- Cumulative network IO counters as returned by `psutil.net_io_counters()`. -/
structure NetCounters where
  bytes_sent : Int
  bytes_recv : Int
  packets_sent : Int
  packets_recv : Int
deriving Repr, DecidableEq

/-- The network adapter's rate-tracking state: the collector fields
`self.network_last` and `self.last_time`. -/
structure RateState where
  network_last : NetCounters
  last_time : ℚ
deriving Repr, DecidableEq

/-- The record returned by `collect_network_info` (the Python dict). -/
structure NetworkInfo where
  bytes_sent : Int
  bytes_recv : Int
  packets_sent : Int
  packets_recv : Int
  upload_speed_mbps : ℚ
  download_speed_mbps : ℚ
deriving Repr, DecidableEq

/-- The zeroed default returned on the network adapter's `except` branch. -/
def network_default : NetworkInfo :=
  { bytes_sent := 0, bytes_recv := 0, packets_sent := 0, packets_recv := 0
    upload_speed_mbps := 0, download_speed_mbps := 0 }

/-- Embedding of `ResourceCollector.collect_network_info`.  `osRead` is the outcome of the
OS calls `time.time()` and `psutil.net_io_counters()`: `some (t, nc)` when
they return, `none` when one of them raises (the `except Exception` branch,
which returns the zeroed dict and leaves the collector state untouched). -/
def collect_network_info (st : RateState) (osRead : Option (ℚ × NetCounters)) :
    NetworkInfo × RateState :=
  match osRead with
  | none => (network_default, st)
  | some (current_time, network_current) =>
    let time_delta := current_time - st.last_time
    let bytes_sent_diff : ℚ :=
      (network_current.bytes_sent : ℚ) - (st.network_last.bytes_sent : ℚ)
    let bytes_recv_diff : ℚ :=
      (network_current.bytes_recv : ℚ) - (st.network_last.bytes_recv : ℚ)
    let upload_speed : ℚ :=
      if time_delta > 0 then bytes_sent_diff / time_delta * 8 / 1000000 else 0
    let download_speed : ℚ :=
      if time_delta > 0 then bytes_recv_diff / time_delta * 8 / 1000000 else 0
    ({ bytes_sent := network_current.bytes_sent
       bytes_recv := network_current.bytes_recv
       packets_sent := network_current.packets_sent
       packets_recv := network_current.packets_recv
       upload_speed_mbps := upload_speed
       download_speed_mbps := download_speed },
     { network_last := network_current, last_time := current_time })

/-- The sensor map returned by `psutil.sensors_temperatures()`: an ordered
mapping (Python dicts preserve insertion order) from sensor-group name to the
list of readings' `current` values. -/
def SensorMap := List (String × List ℚ)

/-- The inner temperature-selection block of `collect_cpu_info`
(lines 36-47): `temps['coretemp'][0].current` if the key is present, else
`temps['cpu_thermal'][0].current`, else the first reading of the first group
when the map is non-empty, else `None`; an `IndexError` on an empty reading
list is caught and yields `None`. -/
def select_cpu_temp (temps : SensorMap) : Option ℚ :=
  match temps.lookup "coretemp" with
  | some readings => readings.head?
  | none =>
    match temps.lookup "cpu_thermal" with
    | some readings => readings.head?
    | none =>
      match temps with
      | [] => none
      | (_, readings) :: _ => readings.head?

/-- The record returned by `collect_cpu_info`. -/
structure CPUInfo where
  percent : ℚ
  count : Nat
  freq_current : Option ℚ
  freq_max : Option ℚ
  temperature : Option ℚ
deriving Repr, DecidableEq

/-- The zeroed default returned on the CPU adapter's `except` branch. -/
def cpu_default : CPUInfo :=
  { percent := 0, count := 0, freq_current := none, freq_max := none
    temperature := none }

/-- The outcome of the CPU adapter's OS calls: `psutil.cpu_percent`,
`psutil.cpu_count`, `psutil.cpu_freq` (which may itself return `None`), and
`psutil.sensors_temperatures` (`none` = the inner try's caught exception). -/
structure CPURead where
  cpu_percent : ℚ
  cpu_count : Nat
  cpu_freq : Option (ℚ × ℚ)
  temps : Option SensorMap

/-- Embedding of `ResourceCollector.collect_cpu_info`; `osRead = none` is the outer
`except Exception` branch. -/
def collect_cpu_info (osRead : Option CPURead) : CPUInfo :=
  match osRead with
  | none => cpu_default
  | some r =>
    { percent := r.cpu_percent
      count := r.cpu_count
      freq_current := r.cpu_freq.map Prod.fst
      freq_max := r.cpu_freq.map Prod.snd
      temperature := r.temps.bind select_cpu_temp }

/-- One GPU device as reported by `GPUtil.getGPUs()`: `load` is the raw
fractional 0-1 figure from the driver. -/
structure GPUDev where
  id : Int
  name : String
  load : ℚ
  memoryUsed : ℚ
  memoryTotal : ℚ
  temperature : ℚ
deriving Repr, DecidableEq

/-- One per-device record built by `collect_gpu_info`. -/
structure GPURecord where
  id : Int
  name : String
  load : ℚ
  memory_used : ℚ
  memory_total : ℚ
  memory_percent : ℚ
  temperature : ℚ
deriving Repr, DecidableEq

/-- The per-device dict built inside `collect_gpu_info`'s loop
(lines 145-153). -/
def gpu_record (gpu : GPUDev) : GPURecord :=
  { id := gpu.id
    name := gpu.name
    load := gpu.load * 100
    memory_used := gpu.memoryUsed
    memory_total := gpu.memoryTotal
    memory_percent :=
      if gpu.memoryTotal > 0 then gpu.memoryUsed / gpu.memoryTotal * 100 else 0
    temperature := gpu.temperature }

/-- Embedding of `ResourceCollector.collect_gpu_info`: `gpuAvailable` is the module-level
`GPU_AVAILABLE` flag (library import succeeded); `osGpus = none` is the
`except Exception` branch of the `GPUtil.getGPUs()` call. -/
def collect_gpu_info (gpuAvailable : Bool) (osGpus : Option (List GPUDev)) :
    Option (List GPURecord) :=
  if gpuAvailable then
    match osGpus with
    | none => none
    | some gpus =>
      match gpus with
      | [] => none
      | _ => some (gpus.map gpu_record)
  else none

/-- The record returned by `collect_memory_info`. -/
structure MemoryInfo where
  total : Int
  available : Int
  used : Int
  percent : ℚ
  swap_total : Int
  swap_used : Int
  swap_percent : ℚ
deriving Repr, DecidableEq

/-- The zeroed default returned on the memory adapter's `except` branch. -/
def memory_default : MemoryInfo :=
  { total := 0, available := 0, used := 0, percent := 0
    swap_total := 0, swap_used := 0, swap_percent := 0 }

/-- Embedding of `ResourceCollector.collect_memory_info`; the argument is the outcome of
`psutil.virtual_memory()` / `psutil.swap_memory()` (`none` = exception). -/
def collect_memory_info (osRead : Option MemoryInfo) : MemoryInfo :=
  match osRead with
  | none => memory_default
  | some m => m

/-- The record returned by `collect_disk_info`. -/
structure DiskInfo where
  total : Int
  used : Int
  free : Int
  percent : ℚ
  read_bytes : Int
  write_bytes : Int
deriving Repr, DecidableEq

/-- The zeroed default returned on the disk adapter's `except` branch. -/
def disk_default : DiskInfo :=
  { total := 0, used := 0, free := 0, percent := 0
    read_bytes := 0, write_bytes := 0 }

/-- The outcome of the disk adapter's OS calls: `psutil.disk_usage('/')` and
`psutil.disk_io_counters()`, the latter optionally `None`. -/
structure DiskRead where
  total : Int
  used : Int
  free : Int
  percent : ℚ
  io : Option (Int × Int)

/-- Embedding of `ResourceCollector.collect_disk_info`; `osRead = none` is the
`except Exception` branch, and a missing `disk_io` yields zero byte counts. -/
def collect_disk_info (osRead : Option DiskRead) : DiskInfo :=
  match osRead with
  | none => disk_default
  | some r =>
    { total := r.total, used := r.used, free := r.free, percent := r.percent
      read_bytes := (r.io.map Prod.fst).getD 0
      write_bytes := (r.io.map Prod.snd).getD 0 }

/-- One entry of `data_history`: the dict built by `collect_all`. -/
structure Snapshot where
  timestamp : ℚ
  cpu : CPUInfo
  memory : MemoryInfo
  disk : DiskInfo
  network : NetworkInfo
  gpu : Option (List GPURecord)
deriving Repr, DecidableEq

/-- The mutable fields of a `ResourceCollector` object. -/
structure CollectorState where
  data_history : List Snapshot
  network_last : NetCounters
  last_time : ℚ
deriving Repr, DecidableEq

/-- The ambient OS state one tick observes: the `datetime.now()` timestamp
and the outcome of every adapter's OS calls (`none` = that adapter's
exception path). -/
structure OSEnv where
  now : ℚ
  cpuRead : Option CPURead
  memRead : Option MemoryInfo
  diskRead : Option DiskRead
  netRead : Option (ℚ × NetCounters)
  gpuAvailable : Bool
  gpuRead : Option (List GPUDev)

/-- Embedding of `ResourceCollector.collect_all`: stamps the time, queries every adapter,
appends the snapshot to `data_history` and returns it. -/
def collect_all (st : CollectorState) (env : OSEnv) : Snapshot × CollectorState :=
  let netResult :=
    collect_network_info { network_last := st.network_last, last_time := st.last_time }
      env.netRead
  let data : Snapshot :=
    { timestamp := env.now
      cpu := collect_cpu_info env.cpuRead
      memory := collect_memory_info env.memRead
      disk := collect_disk_info env.diskRead
      network := netResult.1
      gpu := collect_gpu_info env.gpuAvailable env.gpuRead }
  (data,
   { data_history := st.data_history ++ [data]
     network_last := netResult.2.network_last
     last_time := netResult.2.last_time })

/-- Embedding of `ResourceCollector.get_history`: returns the history list; the state of
the collector is untouched by the read. -/
def get_history (st : CollectorState) : List Snapshot × CollectorState :=
  (st.data_history, st)

/-- A run of successive sampler invocations, one per element of `envs`
(the fixed-interval loop in `monitor.py` or the module's own test loop). -/
def run_ticks (st : CollectorState) : List OSEnv → CollectorState
  | [] => st
  | env :: envs => run_ticks (collect_all st env).2 envs

/-- Performs `n` successive calls of `get_history` with no intervening append,
collecting the returned sequences and threading the state. -/
def read_n_times (st : CollectorState) : Nat → List (List Snapshot) × CollectorState
  | 0 => ([], st)
  | n + 1 =>
    let r := get_history st
    let rest := read_n_times r.2 n
    (r.1 :: rest.1, rest.2)

/-- A fresh `ResourceCollector()` whose initial counters and clock read 0,
with the empty history. -/
def initial_state : CollectorState :=
  { data_history := [], network_last := ⟨0, 0, 0, 0⟩, last_time := 0 }

/-- An environment at time `t` on which every adapter's OS call fails and no
GPU library is importable. -/
def env_at (t : ℚ) : OSEnv :=
  { now := t, cpuRead := none, memRead := none, diskRead := none
    netRead := none, gpuAvailable := false, gpuRead := none }

/-- One scheduled iteration of the collection loop in `monitor_system`:
either it runs to completion (collect, progress display, sleep), or a
`KeyboardInterrupt` arrives before `collect_all` has appended the snapshot,
or one arrives after the append (during the progress display or the
`time.sleep`). -/
inductive TickEvent
  | ok (env : OSEnv)
  | interruptBefore
  | interruptAfter (env : OSEnv)

/-- How the `for` loop of `monitor_system` was left. -/
inductive LoopExit
  | completed
  | broke
  | returned
deriving Repr, DecidableEq

/-- The collection loop of `monitor_system` (monitor.py lines 54-88): `i` is
the loop index; the `except KeyboardInterrupt` handler breaks when `i > 0`
and returns from `monitor_system` when `i == 0`. -/
def monitor_loop (st : CollectorState) (i : Nat) :
    List TickEvent → CollectorState × LoopExit
  | [] => (st, .completed)
  | .ok env :: rest => monitor_loop (collect_all st env).2 (i + 1) rest
  | .interruptBefore :: _ => (st, if i > 0 then .broke else .returned)
  | .interruptAfter env :: _ =>
    ((collect_all st env).2, if i > 0 then .broke else .returned)

/-- Embedding of `monitor_system` (monitor.py lines 54-142): runs the loop and then, when
the loop did not `return`, fetches the history and proceeds to rendering and
the PDF report with it when it is non-empty (`some history`); a `return`
from the loop or an empty history produces no report (`none`). -/
def monitor_system (st0 : CollectorState) (events : List TickEvent) :
    Option (List Snapshot) :=
  let res := monitor_loop st0 0 events
  match res.2 with
  | .returned => none
  | _ =>
    let dh := (get_history res.1).1
    if dh.isEmpty then none else some dh

end SystemMonitor

namespace SystemMonitor

/-- C1: Network rate derivation: with Δt = current time minus
`RateState.last_time` and Δbytes the per-direction counter difference, the
reported rate is Δbytes / Δt * 8 / 1,000,000 Mbps when Δt > 0 and 0 when
Δt ≤ 0; in particular Δbytes_sent = 125000 over Δt = 1 yields
`upload_speed_mbps = 1`. -/
theorem network_rate_derivation (st : RateState) (t : ℚ) (nc : NetCounters) :
    (t - st.last_time > 0 →
      (collect_network_info st (some (t, nc))).1.upload_speed_mbps =
        ((nc.bytes_sent : ℚ) - (st.network_last.bytes_sent : ℚ)) /
          (t - st.last_time) * 8 / 1000000 ∧
      (collect_network_info st (some (t, nc))).1.download_speed_mbps =
        ((nc.bytes_recv : ℚ) - (st.network_last.bytes_recv : ℚ)) /
          (t - st.last_time) * 8 / 1000000) ∧
    (t - st.last_time ≤ 0 →
      (collect_network_info st (some (t, nc))).1.upload_speed_mbps = 0 ∧
      (collect_network_info st (some (t, nc))).1.download_speed_mbps = 0) ∧
    ((nc.bytes_sent : ℚ) - (st.network_last.bytes_sent : ℚ) = 125000 →
      t - st.last_time = 1 →
      (collect_network_info st (some (t, nc))).1.upload_speed_mbps = 1) := by
  refine ⟨fun h => ?_, fun h => ?_, fun hb ht => ?_⟩
  · simp only [collect_network_info]
    rw [if_pos h, if_pos h]
    exact ⟨rfl, rfl⟩
  · have h' : ¬ (t - st.last_time > 0) := not_lt.mpr h
    simp only [collect_network_info]
    rw [if_neg h', if_neg h']
    exact ⟨rfl, rfl⟩
  · have h1 : t - st.last_time > 0 := by rw [ht]; norm_num
    simp only [collect_network_info]
    rw [if_pos h1, hb, ht]
    norm_num

/-- Witness for C1 at concrete inputs: last counters 0 at time 0, current
counters 125000 sent at time 1 give an upload rate of exactly 1 Mbps. -/
theorem network_rate_derivation_witness :
    (collect_network_info
        { network_last := ⟨0, 0, 0, 0⟩, last_time := 0 }
        (some (1, ⟨125000, 0, 0, 0⟩))).1.upload_speed_mbps = 1 := by
  exact (network_rate_derivation
      { network_last := ⟨0, 0, 0, 0⟩, last_time := 0 }
      1 ⟨125000, 0, 0, 0⟩).2.2 (by norm_num) (by norm_num)

/-- C5: RateState update: on every non-failing invocation of the network
adapter the state is set to the just-read counters and time, unconditionally
(also when Δt ≤ 0). -/
theorem ratestate_update_unconditional (st : RateState) (t : ℚ) (nc : NetCounters) :
    (collect_network_info st (some (t, nc))).2 =
      { network_last := nc, last_time := t } := by
  simp [collect_network_info]

/-- C9: on the network adapter's exception path the RateState is left
unchanged (the zeroed record is returned), so the next successful invocation
computes its rates over the interval spanning the failed tick: it behaves
exactly as if the failed call had not happened. -/
theorem ratestate_unchanged_on_error (st : RateState) (t : ℚ) (nc : NetCounters) :
    (collect_network_info st none).2 = st ∧
    (collect_network_info st none).1 = network_default ∧
    collect_network_info (collect_network_info st none).2 (some (t, nc)) =
      collect_network_info st (some (t, nc)) := by
  exact ⟨rfl, rfl, rfl⟩

/-- C4: CPU temperature selection: the first reading of the "coretemp" group
if present; else the first reading of the "cpu_thermal" group if present;
else the first reading of the first sensor group if the map is non-empty;
else absent.  In particular {"coretemp": [71], "other": [55]} yields 71,
{"other": [55]} yields 55, and {} yields absent. -/
theorem cpu_temp_selection (temps : SensorMap) :
    (∀ rs, temps.lookup "coretemp" = some rs →
      select_cpu_temp temps = rs.head?) ∧
    (temps.lookup "coretemp" = none →
      ∀ rs, temps.lookup "cpu_thermal" = some rs →
        select_cpu_temp temps = rs.head?) ∧
    (temps.lookup "coretemp" = none → temps.lookup "cpu_thermal" = none →
      ∀ n rs tl, temps = (n, rs) :: tl →
        select_cpu_temp temps = rs.head?) ∧
    (temps = [] → select_cpu_temp temps = none) ∧
    select_cpu_temp [("coretemp", [71]), ("other", [55])] = some 71 ∧
    select_cpu_temp [("other", [55])] = some 55 ∧
    select_cpu_temp [] = none := by
  refine ⟨fun rs h1 => ?_, fun h1 rs h2 => ?_, fun h1 h2 n rs tl h3 => ?_,
    fun h => ?_, by decide, by decide, rfl⟩
  · unfold select_cpu_temp
    rw [h1]
  · unfold select_cpu_temp
    rw [h1, h2]
  · unfold select_cpu_temp
    rw [h1, h2, h3]
  · subst h
    rfl

/-- Witness for C4: on the map {"coretemp": [71], "other": [55]} the first
branch of the precedence applies and yields 71. -/
theorem cpu_temp_selection_witness :
    select_cpu_temp [("coretemp", [71]), ("other", [55])] = List.head? [71] :=
  (cpu_temp_selection [("coretemp", [71]), ("other", [55])]).1 [71] (by decide)

/-- C6: GPU derived fields: `load` is the driver's fractional load times 100,
and `memory_percent` is used/total*100 when total > 0 and 0 when total = 0;
e.g. used=2000, total=0 yields 0 and used=2000, total=8000 yields 25. -/
theorem gpu_derived_fields (gpu : GPUDev) :
    (gpu_record gpu).load = gpu.load * 100 ∧
    (gpu.memoryTotal > 0 →
      (gpu_record gpu).memory_percent = gpu.memoryUsed / gpu.memoryTotal * 100) ∧
    (gpu.memoryTotal = 0 → (gpu_record gpu).memory_percent = 0) ∧
    (gpu_record ⟨0, "", 0, 2000, 0, 0⟩).memory_percent = 0 ∧
    (gpu_record ⟨0, "", 0, 2000, 8000, 0⟩).memory_percent = 25 := by
  refine ⟨rfl, fun h => ?_, fun h => ?_, by norm_num [gpu_record],
    by norm_num [gpu_record]⟩
  · simp only [gpu_record]
    rw [if_pos h]
  · simp only [gpu_record]
    rw [if_neg (by rw [h]; exact lt_irrefl 0)]

/-- Witness for C6: a device with used=2000, total=8000 gets
memory_percent = 25. -/
theorem gpu_derived_fields_witness :
    (gpu_record ⟨0, "", 0, 2000, 8000, 0⟩).memory_percent =
      (2000 : ℚ) / 8000 * 100 :=
  (gpu_derived_fields ⟨0, "", 0, 2000, 8000, 0⟩).2.1 (by norm_num)

/-- C8: GPU absence: the adapter returns absent both when the GPU library is
not importable and when it is present but reports no devices; otherwise it
returns exactly one record per device. -/
theorem gpu_absence (osGpus : Option (List GPUDev)) (gpus : List GPUDev) :
    collect_gpu_info false osGpus = none ∧
    collect_gpu_info true (some []) = none ∧
    (gpus ≠ [] →
      collect_gpu_info true (some gpus) = some (gpus.map gpu_record) ∧
      ∀ recs, collect_gpu_info true (some gpus) = some recs →
        recs.length = gpus.length) := by
  refine ⟨rfl, rfl, fun hne => ?_⟩
  match gpus with
  | [] => exact absurd rfl hne
  | g :: gs =>
    refine ⟨rfl, fun recs hrecs => ?_⟩
    simp only [collect_gpu_info, if_pos] at hrecs
    cases hrecs
    simp

/-- Witness for C8: one device yields exactly one record. -/
theorem gpu_absence_witness :
    collect_gpu_info true (some [⟨0, "", 0, 2000, 8000, 0⟩]) =
      some ([⟨0, "", 0, 2000, 8000, 0⟩].map gpu_record) :=
  ((gpu_absence none [⟨0, "", 0, 2000, 8000, 0⟩]).2.2 (by simp)).1

theorem collect_all_history (st : CollectorState) (env : OSEnv) :
    (collect_all st env).2.data_history =
      st.data_history ++ [(collect_all st env).1] := rfl

theorem collect_all_timestamp (st : CollectorState) (env : OSEnv) :
    (collect_all st env).1.timestamp = env.now := rfl

theorem run_ticks_history_map (st : CollectorState) (envs : List OSEnv) :
    (run_ticks st envs).data_history.map Snapshot.timestamp =
      st.data_history.map Snapshot.timestamp ++ envs.map OSEnv.now := by
  induction envs generalizing st with
  | nil => simp [run_ticks]
  | cons e es ih =>
    rw [run_ticks, ih, collect_all_history]
    simp [collect_all_timestamp]

theorem run_ticks_extends (st : CollectorState) (envs : List OSEnv) :
    st.data_history <+: (run_ticks st envs).data_history := by
  induction envs generalizing st with
  | nil => exact List.prefix_refl _
  | cons e es ih =>
    rw [run_ticks]
    refine List.IsPrefix.trans ?_ (ih _)
    rw [collect_all_history]
    exact List.prefix_append _ _

/-- C3: History invariant: over any run, History is append-only (the prior
history is a prefix of the final one), its length equals the number of
sampler invocations, and — assuming the clock readings of successive ticks
are strictly increasing, as a positive sampling interval guarantees — its
timestamps are strictly increasing. -/
theorem history_invariant (st : CollectorState) (envs : List OSEnv)
    (hmono : List.Chain' (· < ·)
      (st.data_history.map Snapshot.timestamp ++ envs.map OSEnv.now)) :
    (run_ticks st envs).data_history.length =
      st.data_history.length + envs.length ∧
    st.data_history <+: (run_ticks st envs).data_history ∧
    List.Chain' (· < ·)
      ((run_ticks st envs).data_history.map Snapshot.timestamp) := by
  refine ⟨?_, run_ticks_extends st envs, ?_⟩
  · have h := congrArg List.length (run_ticks_history_map st envs)
    simpa using h
  · rw [run_ticks_history_map]
    exact hmono

/-- Witness for C3: two ticks at times 1 and 2 from a fresh collector give a
history of length 2. -/
theorem history_invariant_witness :
    (run_ticks initial_state [env_at 1, env_at 2]).data_history.length =
      initial_state.data_history.length + 2 :=
  (history_invariant initial_state [env_at 1, env_at 2]
    (by simp [initial_state, env_at])).1

/-- C7: Adapter error policy: an internal failure of any adapter degrades
only that adapter's record to its zeroed/absent default, the other records
are unaffected, and every tick — even one on which all adapters fail —
appends exactly one snapshot to History. -/
theorem adapter_error_policy (st : CollectorState) (env : OSEnv) :
    (env.cpuRead = none → (collect_all st env).1.cpu = cpu_default) ∧
    (env.memRead = none → (collect_all st env).1.memory = memory_default) ∧
    (env.diskRead = none → (collect_all st env).1.disk = disk_default) ∧
    (env.netRead = none → (collect_all st env).1.network = network_default) ∧
    (env.gpuRead = none → (collect_all st env).1.gpu = none) ∧
    (collect_all st env).1.cpu = collect_cpu_info env.cpuRead ∧
    (collect_all st env).1.memory = collect_memory_info env.memRead ∧
    (collect_all st env).1.disk = collect_disk_info env.diskRead ∧
    (collect_all st env).1.gpu = collect_gpu_info env.gpuAvailable env.gpuRead ∧
    (collect_all st env).2.data_history =
      st.data_history ++ [(collect_all st env).1] := by
  refine ⟨fun h => ?_, fun h => ?_, fun h => ?_, fun h => ?_, fun h => ?_,
    rfl, rfl, rfl, rfl, rfl⟩
  · simp [collect_all, h, collect_cpu_info]
  · simp [collect_all, h, collect_memory_info]
  · simp [collect_all, h, collect_disk_info]
  · simp [collect_all, h, collect_network_info]
  · simp [collect_all, h, collect_gpu_info]

/-- Witness for C7: a tick on which every adapter fails still appends one
snapshot, with the CPU record at its zeroed default. -/
theorem adapter_error_policy_witness :
    (collect_all initial_state (env_at 1)).1.cpu = cpu_default ∧
    (collect_all initial_state (env_at 1)).2.data_history =
      initial_state.data_history ++ [(collect_all initial_state (env_at 1)).1] :=
  ⟨(adapter_error_policy initial_state (env_at 1)).1 rfl,
   (adapter_error_policy initial_state (env_at 1)).2.2.2.2.2.2.2.2.2⟩

/-- C10: Read idempotence: any number of `get_history` calls without an
intervening append leaves the collector state unchanged, and every returned
sequence is the same history list. -/
theorem read_idempotent (st : CollectorState) (n : Nat) :
    (read_n_times st n).2 = st ∧
    ∀ l ∈ (read_n_times st n).1, l = st.data_history := by
  induction n with
  | zero => exact ⟨rfl, by simp [read_n_times]⟩
  | succ n ih =>
    refine ⟨ih.1, ?_⟩
    intro l hl
    simp only [read_n_times, get_history, List.mem_cons] at hl
    rcases hl with h | h
    · exact h
    · exact ih.2 l h

/-- Witness for C10: three reads on a fresh collector all return its (empty)
history, and the state is unchanged. -/
theorem read_idempotent_witness :
    (read_n_times initial_state 3).2 = initial_state ∧
    ([] : List Snapshot) ∈ (read_n_times initial_state 3).1 ∧
    ([] : List Snapshot) = initial_state.data_history :=
  ⟨(read_idempotent initial_state 3).1, by simp [read_n_times, get_history, initial_state],
   (read_idempotent initial_state 3).2 []
     (by simp [read_n_times, get_history, initial_state])⟩

/-- C2 counter-evidence: with 3 scheduled ticks, a `KeyboardInterrupt`
arriving during the wait after the first tick (loop index `i = 0`, one
snapshot already appended) hits the `else: return` branch of the handler,
so `monitor_system` exits without rendering a report even though History
holds exactly 1 entry — the claim expects downstream processing to proceed
on that entry. -/
theorem cancellation_after_first_tick_bug :
    (monitor_loop initial_state 0
        [TickEvent.interruptAfter (env_at 1)]).1.data_history.length = 1 ∧
    (monitor_loop initial_state 0
        [TickEvent.interruptAfter (env_at 1)]).2 = LoopExit.returned ∧
    monitor_system initial_state [TickEvent.interruptAfter (env_at 1)] = none := by
  exact ⟨rfl, rfl, rfl⟩

end SystemMonitor
